/-
Verification of the BrandAI run store, decision policy and workflow glue.

Shallow embedding of:
  backend/app/core/run_manager.py   (class RunManager)
  backend/app/api/routes.py         (generate_ad validation, execute_workflow)
  backend/app/core/orchestrator.py  (should_continue; file not in the tree,
                                     modelled from the design document)

Python `datetime.now` timestamps are modelled as an explicit `now : Nat`
argument to every mutating operation; Python floats carrying progress
percentages are modelled as rationals (only `max`/`min`/comparison are used
on them, on which floats agree with the reals).
-/
import Mathlib

namespace BrandAI

/-- Association-list update with Python-dict semantics: assigning to an
existing key replaces its value in place (keeping insertion order);
assigning to a new key appends it at the end. -/
def dictSet (l : List (String × α)) (k : String) (v : α) : List (String × α) :=
  match l with
  | [] => [(k, v)]
  | (k₁, v₁) :: t => if k₁ = k then (k, v) :: t else (k₁, v₁) :: dictSet t k v

/-- Python `dict.update`: entries of `m` overwrite or extend `l`. -/
def dictMerge (l m : List (String × α)) : List (String × α) :=
  match m with
  | [] => l
  | (k, v) :: t => dictMerge (dictSet l k v) t

theorem dictSet_lookup_self (l : List (String × α)) (k : String) (v : α) :
    (dictSet l k v).lookup k = some v := by
  induction l with
  | nil => simp [dictSet, List.lookup]
  | cons hd t ih =>
    obtain ⟨k₁, v₁⟩ := hd
    by_cases h : k₁ = k
    · subst h
      simp [dictSet, List.lookup]
    · have hb : (k == k₁) = false := beq_eq_false_iff_ne.mpr (Ne.symm h)
      simp [dictSet, h, List.lookup, hb, ih]

theorem dictSet_lookup_ne (l : List (String × α)) (k k₂ : String) (v : α)
    (h : k₂ ≠ k) : (dictSet l k v).lookup k₂ = l.lookup k₂ := by
  induction l with
  | nil =>
    have hb : (k₂ == k) = false := beq_eq_false_iff_ne.mpr h
    simp [dictSet, List.lookup, hb]
  | cons hd t ih =>
    obtain ⟨k₁, v₁⟩ := hd
    by_cases h1 : k₁ = k
    · subst h1
      have hb : (k₂ == k₁) = false := beq_eq_false_iff_ne.mpr h
      simp [dictSet, List.lookup, hb]
    · cases hbk : k₂ == k₁ <;> simp [dictSet, h1, List.lookup, hbk, ih]

/-- Run status values (class RunStatus in app/models/run.py).
Modelled from the spec: app/models/run.py is not in the tree; the design
document lists the status set
pending, extracting_brand_kit, generating, critiquing, refining, completed,
failed, of which run_manager.py uses PENDING, COMPLETED and FAILED. -/
inductive RunStatus where
  | pending
  | extracting_brand_kit
  | generating
  | critiquing
  | refining
  | completed
  | failed
deriving DecidableEq, Repr

/-- One Stage Record (class RunStage in app/models/run.py).
Modelled from the spec: app/models/run.py is not in the tree; the design
document gives a Stage Record stage name, status, start time, completion
time (null while running), free-form metadata and error text (only if
failed); fields not passed by RunManager.start_stage default to null. -/
structure RunStage where
  stage_name : String
  status : RunStatus
  started_at : Nat
  completed_at : Option Nat := none
  metadata : List (String × String) := []
  error : Option String := none
deriving DecidableEq, Repr

/-- One Run record (class RunModel in app/models/run.py).
Modelled from the spec: app/models/run.py is not in the tree; the design
document gives the Run fields (identity, input snapshot, status, progress,
current stage, stage history, result fields, retry count, timestamps) and
their initial values: fields not passed by RunManager.create_run default to
null / empty / 0, the created and last-updated timestamps to creation time,
the completed timestamp to null. Opaque structured payloads (brand kit,
critique results, stage metadata) are modelled as string association lists;
only presence and equality of these payloads matter to the claims. -/
structure RunModel where
  run_id : String
  prompt : String
  media_type : String
  brand_website_url : Option String := none
  status : RunStatus
  progress : ℚ
  current_stage : Option String := none
  stages : List (String × RunStage) := []
  brand_kit_data : Option (List (String × String)) := none
  generated_ads : List String := []
  critique_results : Option (List (String × String)) := none
  final_ad_path : Option String := none
  error_message : Option String := none
  retry_count : Nat := 0
  created_at : Nat
  updated_at : Nat
  completed_at : Option Nat := none
deriving DecidableEq, Repr

/-- The RunManager's `_runs` dictionary, keyed by run id.  This is the
value-level view of the store: each operation is the field-by-field update
the corresponding Python method performs on the run it looks up. -/
def Store := List (String × RunModel)

instance : DecidableEq Store := by
  unfold Store
  infer_instance

/-- RunManager.create_run (run_manager.py lines 25-56): builds a run with
status PENDING and progress 0.0 and stores it under a freshly generated id.
`_generate_run_id` draws `str(uuid.uuid4())`; the draw is passed in as the
`uuid` argument. Returns the run together with the updated store, as the
Python method returns the run after inserting it. -/
def createRun (s : Store) (prompt media_type : String)
    (brand_website_url : Option String) (uuid : String) (now : Nat) :
    RunModel × Store :=
  let run : RunModel :=
    { run_id := uuid
      prompt := prompt
      media_type := media_type
      brand_website_url := brand_website_url
      status := RunStatus.pending
      progress := 0
      created_at := now
      updated_at := now }
  (run, dictSet s uuid run)

/-- RunManager.get_run (lines 58-69): `self._runs.get(run_id)`. -/
def getRun (s : Store) (run_id : String) : Option RunModel :=
  s.lookup run_id

/-- RunManager.update_status (lines 71-109): always sets status and the
last-updated timestamp; progress, when supplied, is stored clamped as
`max(0.0, min(100.0, progress))`; current stage and error message are set
only when supplied. Returns `none` when the run id is unknown (Python
returns False and changes nothing). -/
def updateStatus (s : Store) (run_id : String) (status : RunStatus)
    (progress : Option ℚ) (current_stage : Option String)
    (error_message : Option String) (now : Nat) : Option Store :=
  match s.lookup run_id with
  | none => none
  | some run =>
    let run1 := { run with status := status, updated_at := now }
    let run2 := match progress with
      | none => run1
      | some p => { run1 with progress := max 0 (min 100 p) }
    let run3 := match current_stage with
      | none => run2
      | some cs => { run2 with current_stage := some cs }
    let run4 := match error_message with
      | none => run3
      | some e => { run3 with error_message := some e }
    some (dictSet s run_id run4)

/-- RunManager.start_stage (lines 111-144): inserts or overwrites the Stage
Record for the name (status PENDING, started now, `metadata or {}`), sets
the current stage and the last-updated timestamp. -/
def startStage (s : Store) (run_id stage_name : String)
    (metadata : Option (List (String × String))) (now : Nat) : Option Store :=
  match s.lookup run_id with
  | none => none
  | some run =>
    let stage : RunStage :=
      { stage_name := stage_name
        status := RunStatus.pending
        started_at := now
        metadata := metadata.getD [] }
    some (dictSet s run_id
      { run with
        stages := dictSet run.stages stage_name stage
        current_stage := some stage_name
        updated_at := now })

/-- RunManager.complete_stage (lines 146-177): if a Stage Record exists
under the name, marks it completed now and merges any non-empty metadata;
in every case sets the run's last-updated timestamp and reports success. -/
def completeStage (s : Store) (run_id stage_name : String)
    (metadata : Option (List (String × String))) (now : Nat) : Option Store :=
  match s.lookup run_id with
  | none => none
  | some run =>
    let stages := match run.stages.lookup stage_name with
      | none => run.stages
      | some stage =>
        let stage1 := { stage with
          status := RunStatus.completed
          completed_at := some now }
        let stage2 := match metadata with
          | none => stage1
          | some [] => stage1
          | some m => { stage1 with metadata := dictMerge stage1.metadata m }
        dictSet run.stages stage_name stage2
    some (dictSet s run_id { run with stages := stages, updated_at := now })

/-- RunManager.fail_stage (lines 179-215): if a Stage Record exists under
the name, marks it failed now with the error and merges any non-empty
metadata; in every case sets the whole run's status to FAILED, stores the
error message, sets the last-updated timestamp and reports success. -/
def failStage (s : Store) (run_id stage_name : String) (error : String)
    (metadata : Option (List (String × String))) (now : Nat) : Option Store :=
  match s.lookup run_id with
  | none => none
  | some run =>
    let stages := match run.stages.lookup stage_name with
      | none => run.stages
      | some stage =>
        let stage1 := { stage with
          status := RunStatus.failed
          completed_at := some now
          error := some error }
        let stage2 := match metadata with
          | none => stage1
          | some [] => stage1
          | some m => { stage1 with metadata := dictMerge stage1.metadata m }
        dictSet run.stages stage_name stage2
    some (dictSet s run_id
      { run with
        stages := stages
        status := RunStatus.failed
        error_message := some error
        updated_at := now })

/-- RunManager.update_run_data (lines 217-257): result fields supplied are
set, the rest left unchanged; sets the last-updated timestamp. -/
def updateRunData (s : Store) (run_id : String)
    (brand_kit_data : Option (List (String × String)))
    (generated_ads : Option (List String))
    (critique_results : Option (List (String × String)))
    (final_ad_path : Option String) (now : Nat) : Option Store :=
  match s.lookup run_id with
  | none => none
  | some run =>
    let run1 := match brand_kit_data with
      | none => run
      | some b => { run with brand_kit_data := some b }
    let run2 := match generated_ads with
      | none => run1
      | some g => { run1 with generated_ads := g }
    let run3 := match critique_results with
      | none => run2
      | some c => { run2 with critique_results := some c }
    let run4 := match final_ad_path with
      | none => run3
      | some f => { run3 with final_ad_path := some f }
    some (dictSet s run_id { run4 with updated_at := now })

/-- RunManager.increment_retry (lines 259-277). -/
def incrementRetry (s : Store) (run_id : String) (now : Nat) : Option Store :=
  match s.lookup run_id with
  | none => none
  | some run =>
    some (dictSet s run_id
      { run with retry_count := run.retry_count + 1, updated_at := now })

/-- RunManager.complete_run (lines 279-300): sets status COMPLETED on
success and FAILED otherwise, progress 100.0, and both the completed and
last-updated timestamps. -/
def completeRun (s : Store) (run_id : String) (success : Bool) (now : Nat) :
    Option Store :=
  match s.lookup run_id with
  | none => none
  | some run =>
    some (dictSet s run_id
      { run with
        status := if success then RunStatus.completed else RunStatus.failed
        progress := 100
        completed_at := some now
        updated_at := now })

/-- RunManager.delete_run (lines 302-316). -/
def deleteRun (s : Store) (run_id : String) : Option Store :=
  match s.lookup run_id with
  | none => none
  | some _ => some (s.filter (fun p => p.1 ≠ run_id))

/-- Modelled from the spec: `should_continue` lives in
app/core/orchestrator.py, which is not in the tree (only its test,
scripts/test_phase7_orchestrator.py, and its caller are). The design
document gives the Decision Policy as a pure function of the critique's
recommended refinement strategy, the current retry count and the retry
ceiling, evaluated in order: retry_count >= max_retries forces end; a
missing strategy yields end; otherwise the strategy passes through
unchanged. The Python function reads these three fields from the workflow
state dict and returns the decision as a string. -/
def should_continue (refinement_strategy : Option String)
    (retry_count max_retries : Nat) : String :=
  if max_retries ≤ retry_count then "end"
  else
    match refinement_strategy with
    | none => "end"
    | some s => s

/-- Python `str.isspace()`, the character set `str.strip()` with no
argument removes: the ASCII control whitespace U+0009 to U+000D, space,
the information separators U+001C to U+001F, next line U+0085, no-break
space U+00A0, Ogham space mark U+1680, the space separators U+2000 to
U+200A, line separator U+2028, paragraph separator U+2029, narrow no-break
space U+202F, medium mathematical space U+205F and ideographic space
U+3000. -/
def pyIsSpace (c : Char) : Bool :=
  let n := c.toNat
  (0x09 ≤ n && n ≤ 0x0d) || n == 0x20 ||
    (0x1c ≤ n && n ≤ 0x1f) || n == 0x85 || n == 0xa0 ||
    n == 0x1680 || (0x2000 ≤ n && n ≤ 0x200a) ||
    n == 0x2028 || n == 0x2029 || n == 0x202f || n == 0x205f || n == 0x3000

def pyStrip (s : String) : String :=
  String.mk (((s.data.dropWhile pyIsSpace).reverse.dropWhile pyIsSpace).reverse)

/-- The input validation of generate_ad (routes.py lines 70-76), run before
any run is created: reject when the prompt is empty or its stripped length
is below 10 characters, then reject when the media type string is neither
"image" nor "video". -/
def validateGenerate (prompt media_type : String) : Except String Unit :=
  if prompt = "" ∨ (pyStrip prompt).length < 10 then
    Except.error "Prompt must be at least 10 characters long"
  else if ¬ (media_type = "image" ∨ media_type = "video") then
    Except.error "media_type must be image or video"
  else
    Except.ok ()

/-- The run-creating path of generate_ad (routes.py lines 66-170, with no
file uploads): validate, then create the run; a validation failure is
raised before `run_manager.create_run` is reached, so the store is
untouched on the error path. Returns the new run id with the updated
store. -/
def generateAd (s : Store) (prompt media_type : String)
    (brand_website_url : Option String) (uuid : String) (now : Nat) :
    Except String (String × Store) :=
  match validateGenerate prompt media_type with
  | Except.error e => Except.error e
  | Except.ok _ =>
    let (run, s1) := createRun s prompt media_type brand_website_url uuid now
    Except.ok (run.run_id, s1)

/-- The attribute names defined by class RunManager (run_manager.py lines
13-341): the two instance attributes set in `__init__` and the methods of
the class body. Python resolves `run_manager.<name>` against exactly this
set; any other name raises AttributeError. -/
def runManagerAttrs : List String :=
  ["_runs", "_lock", "__init__", "create_run", "get_run", "update_status",
   "start_stage", "complete_stage", "fail_stage", "update_run_data",
   "increment_retry", "complete_run", "delete_run", "list_runs",
   "_generate_run_id"]

/-- The `except` branch of execute_workflow (routes.py lines 210-212),
entered when the background workflow execution raises: it evaluates
`run_manager.fail_run(run_id, str(e))`. Attribute lookup of "fail_run" on
the RunManager instance succeeds only if the name is among the class's
attributes; otherwise the call itself raises AttributeError and the store
is left as it was. (Were the attribute present, the branch would record
the failure; that arm is unreachable on the class as written.) -/
def executeWorkflowOnFault (s : Store) (run_id errText : String) (now : Nat) :
    Except String Store :=
  if runManagerAttrs.contains "fail_run" then
    Except.ok ((failStage s run_id "workflow" errText none now).getD s)
  else
    Except.error "AttributeError: RunManager object has no attribute fail_run"

/-- Reference-level view of the store, for aliasing questions. RunModel
objects are mutable Python objects on a heap; `_runs` maps run ids to
references. `get_run` returns `self._runs.get(run_id)` — the reference
itself, not a copy — and `list_runs` returns `list(self._runs.values())` —
a new list whose elements are the same references. `update_status` mutates
the referenced object in place. -/
structure HStore where
  heap : List RunModel
  runs : List (String × Nat)
deriving DecidableEq

/-- Dereference a RunModel object reference. -/
def HStore.deref (s : HStore) (a : Nat) : Option RunModel :=
  s.heap[a]?

/-- RunManager.create_run, reference level: the new RunModel object is
allocated on the heap and its reference stored under the new id. -/
def hCreateRun (s : HStore) (prompt media_type : String)
    (brand_website_url : Option String) (uuid : String) (now : Nat) :
    Nat × HStore :=
  let (run, _) := createRun [] prompt media_type brand_website_url uuid now
  (s.heap.length,
   { heap := s.heap ++ [run]
     runs := dictSet s.runs uuid s.heap.length })

/-- RunManager.get_run, reference level: returns the stored reference. -/
def hGetRun (s : HStore) (run_id : String) : Option Nat :=
  s.runs.lookup run_id

/-- RunManager.update_status, reference level: looks up the reference and
mutates the RunModel object it points to in place, with the same
field-by-field update as `updateStatus`. -/
def hUpdateStatus (s : HStore) (run_id : String) (status : RunStatus)
    (progress : Option ℚ) (current_stage : Option String)
    (error_message : Option String) (now : Nat) : Option HStore :=
  match s.runs.lookup run_id with
  | none => none
  | some a =>
    match s.heap[a]? with
    | none => none
    | some run =>
      let run1 := { run with status := status, updated_at := now }
      let run2 := match progress with
        | none => run1
        | some p => { run1 with progress := max 0 (min 100 p) }
      let run3 := match current_stage with
        | none => run2
        | some cs => { run2 with current_stage := some cs }
      let run4 := match error_message with
        | none => run3
        | some e => { run3 with error_message := some e }
      some { s with heap := s.heap.set a run4 }

/-- RunManager.list_runs, reference level: builds a new list of the stored
references, keeping those whose referent's status matches the filter. -/
def hListRuns (s : HStore) (status : Option RunStatus) : List Nat :=
  match status with
  | none => s.runs.map Prod.snd
  | some st =>
    (s.runs.map Prod.snd).filter
      (fun a => match s.heap[a]? with
        | some r => decide (r.status = st)
        | none => false)

/-- Modelled from the spec: the Orchestration Engine
(app/core/orchestrator.py) is not in the tree. The design document fixes
the operations the engine performs on the Run Store during a run's
execution — status/progress updates on each state entry, stage start /
completion / failure records, retry increments, result-field writes and the
terminal completion — and requires the progress written on a state entry to
be a per-stage checkpoint that never regresses below the run's current
value, even when a retry loop re-enters an earlier stage. Each constructor
carries the data the engine passes to the corresponding RunManager call. -/
inductive EngineOp where
  | enterState (status : RunStatus) (checkpoint : ℚ)
      (current_stage : Option String) (now : Nat)
  | startStageOp (name : String) (md : Option (List (String × String)))
      (now : Nat)
  | completeStageOp (name : String) (md : Option (List (String × String)))
      (now : Nat)
  | failStageOp (name : String) (err : String)
      (md : Option (List (String × String))) (now : Nat)
  | retryOp (now : Nat)
  | dataOp (bk : Option (List (String × String))) (ads : Option (List String))
      (cr : Option (List (String × String))) (fp : Option String) (now : Nat)
  | finishOp (success : Bool) (now : Nat)

/-- Modelled from the spec: one engine-issued Run Store call. A state entry
writes its checkpoint through update_status, floored at the run's current
progress so a retry loop does not reset progress below an earlier value;
every other call is the RunManager operation itself, none of which takes a
progress argument. An operation on a missing run leaves the store as the
Python methods do (they return False and change nothing). -/
def applyEngineOp (run_id : String) (s : Store) : EngineOp → Store
  | EngineOp.enterState st cp cs now =>
    match s.lookup run_id with
    | none => s
    | some run =>
      (updateStatus s run_id st (some (max run.progress cp)) cs none now).getD s
  | EngineOp.startStageOp name md now => (startStage s run_id name md now).getD s
  | EngineOp.completeStageOp name md now =>
    (completeStage s run_id name md now).getD s
  | EngineOp.failStageOp name err md now =>
    (failStage s run_id name err md now).getD s
  | EngineOp.retryOp now => (incrementRetry s run_id now).getD s
  | EngineOp.dataOp bk ads cr fp now =>
    (updateRunData s run_id bk ads cr fp now).getD s
  | EngineOp.finishOp success now => (completeRun s run_id success now).getD s

/-- A run's execution as observed through the Run Store: the engine's calls
applied in order. -/
def applyEngineOps (run_id : String) (s : Store) (ops : List EngineOp) : Store :=
  ops.foldl (applyEngineOp run_id) s

example : should_continue (some "regenerate") 3 3 = "end" := by decide

example : pyStrip "abcdefghi " = "abcdefghi" := by decide

example : validateGenerate "abcdefghij" "image" = Except.ok () := by rfl

/-- Claim C1: the Decision Policy is a pure function of
(strategy, retry_count, max_retries): whenever retry_count >= max_retries
it returns end regardless of strategy; otherwise a null/absent strategy
yields end; otherwise the strategy passes through unchanged — and the six
table entries of the design document hold. -/
theorem should_continue_policy :
    (∀ s rc mr, mr ≤ rc → should_continue s rc mr = "end") ∧
    (∀ rc mr, rc < mr → should_continue none rc mr = "end") ∧
    (∀ s rc mr, rc < mr → should_continue (some s) rc mr = s) ∧
    should_continue (some "approve") 0 3 = "approve" ∧
    should_continue (some "reject") 0 3 = "reject" ∧
    should_continue (some "regenerate") 0 3 = "regenerate" ∧
    should_continue (some "regenerate") 3 3 = "end" ∧
    should_continue (some "enhance") 0 3 = "enhance" ∧
    should_continue none 0 3 = "end" := by
  refine ⟨?_, ?_, ?_, by decide, by decide, by decide, by decide, by decide,
    by decide⟩
  · intro s rc mr h
    simp [should_continue, h]
  · intro rc mr h
    simp [should_continue, Nat.not_le.mpr h]
  · intro s rc mr h
    simp [should_continue, Nat.not_le.mpr h]

/-- Witness for C1 at concrete inputs. -/
theorem should_continue_policy_witness :
    should_continue (some "whatever") 5 3 = "end" ∧
    should_continue none 1 3 = "end" ∧
    should_continue (some "enhance") 2 3 = "enhance" :=
  ⟨should_continue_policy.1 (some "whatever") 5 3 (by decide),
   should_continue_policy.2.1 1 3 (by decide),
   should_continue_policy.2.2.1 "enhance" 2 3 (by decide)⟩

/-- Claim C8 counterexample: the prompt "abcdefghi " is 10 characters long
and the media kind is image, so by the claim it passes validation; the code
rejects it, because the length check is applied to the stripped prompt,
whose length is 9. The same happens with non-ASCII whitespace: a prompt of
8 letters and two no-break spaces has length 10 but strips to 8 and is
rejected. -/
theorem validate_length_ten_rejected :
    "abcdefghi ".length = 10 ∧
    (pyStrip "abcdefghi ").length = 9 ∧
    validateGenerate "abcdefghi " "image" =
      Except.error "Prompt must be at least 10 characters long" ∧
    "abcdefgh\u00A0\u00A0".length = 10 ∧
    (pyStrip "abcdefgh\u00A0\u00A0").length = 8 ∧
    validateGenerate "abcdefgh\u00A0\u00A0" "image" =
      Except.error "Prompt must be at least 10 characters long" := by
  refine ⟨by decide, by decide, by rfl, by decide, by decide, by rfl⟩

/-- Claim C8 as amended: generate_ad rejects with a validation failure,
before any run is created, exactly those requests whose prompt has fewer
than 10 characters after stripping leading and trailing whitespace or whose
media kind is not image or video; on the rejecting path the store is left
untouched because the failure is raised before create_run. -/
theorem validate_characterization :
    ∀ prompt media_type : String,
      (validateGenerate prompt media_type = Except.ok () ↔
        (10 ≤ (pyStrip prompt).length ∧
          (media_type = "image" ∨ media_type = "video"))) ∧
      (∀ e s url uuid now,
        validateGenerate prompt media_type = Except.error e →
        generateAd s prompt media_type url uuid now = Except.error e) ∧
      (∀ s url uuid now r,
        generateAd s prompt media_type url uuid now = Except.ok r →
        validateGenerate prompt media_type = Except.ok ()) := by
  intro prompt media_type
  refine ⟨?_, ?_, ?_⟩
  · unfold validateGenerate
    by_cases h1 : prompt = "" ∨ (pyStrip prompt).length < 10
    · simp only [h1, if_true]
      constructor
      · intro hc
        exact absurd hc (by simp)
      · rintro ⟨h10, _⟩
        rcases h1 with h | h
        · subst h
          exact absurd h10 (by decide)
        · exact absurd h10 (by omega)
    · simp only [h1, if_false]
      push_neg at h1
      by_cases h2 : media_type = "image" ∨ media_type = "video"
      · simp [h2, h1.2]
      · simp [h2]
  · intro e s url uuid now hval
    simp [generateAd, hval]
  · intro s url uuid now r hok
    unfold generateAd at hok
    cases hv : validateGenerate prompt media_type with
    | ok u => cases u; rfl
    | error e => rw [hv] at hok; cases hok

/-- Witness for C8 amended at concrete inputs. -/
theorem validate_characterization_witness :
    (validateGenerate "a brand advert" "video" = Except.ok () ↔
      (10 ≤ (pyStrip "a brand advert").length ∧
        ("video" = "image" ∨ "video" = "video"))) ∧
    generateAd [] "too short" "image" none "u1" 0 =
      Except.error "Prompt must be at least 10 characters long" :=
  ⟨(validate_characterization "a brand advert" "video").1,
   (validate_characterization "too short" "image").2.1
     "Prompt must be at least 10 characters long" [] none "u1" 0 (by rfl)⟩

/-- A store holding one freshly created run, id "r1". -/
def sampleStore : Store :=
  (createRun [] "Nike shoe advertisement showcasing athletic performance"
    "image" none "r1" 0).2

/-- sampleStore after fail_stage on the generation stage. -/
def sampleFailedStore : Store :=
  (failStage sampleStore "r1" "generation" "boom" none 1).getD []

/-- Claim C2 (code bug): when the background workflow execution raises, the
top-level handler is supposed to record a terminal failed status, but its
recovery call `run_manager.fail_run(run_id, str(e))` names an attribute the
RunManager class does not define, so the handler itself raises
AttributeError on every input and the store is never updated: a freshly
created run hit by a background fault stays pending. -/
theorem execute_workflow_fault_unrecorded :
    (∀ (s : Store) (run_id errText : String) (now : Nat),
      executeWorkflowOnFault s run_id errText now =
        Except.error
          "AttributeError: RunManager object has no attribute fail_run") ∧
    (getRun sampleStore "r1").map RunModel.status = some RunStatus.pending := by
  exact ⟨fun s run_id errText now => rfl, rfl⟩

/-- Claim C3 counterexample: create a run and fail one of its stages; the
run's status is failed — a terminal status — while its completed timestamp
is still unset, so terminal status and a set completed timestamp are not
equivalent. -/
theorem terminal_status_without_completed_timestamp :
    (getRun sampleFailedStore "r1").map RunModel.status =
      some RunStatus.failed ∧
    (getRun sampleFailedStore "r1").map RunModel.completed_at = some none := by
  exact ⟨rfl, rfl⟩

/-- Claim C3 as amended: the completed timestamp is set by complete_run,
which also sets a terminal status ({completed, failed}, completed exactly
on success) and progress 100; fail_stage sets the terminal status failed
with the error message populated but leaves both the progress and the
completed timestamp at their previous values, so a run failed through
fail_stage has a terminal status with no completed timestamp and possibly
progress below 100. -/
theorem run_termination_semantics :
    ∀ (s : Store) (id : String) (success : Bool) (now : Nat) (run : RunModel),
      s.lookup id = some run →
      (∃ s2 run2, completeRun s id success now = some s2 ∧
        s2.lookup id = some run2 ∧
        (run2.status = RunStatus.completed ∨ run2.status = RunStatus.failed) ∧
        (success = true → run2.status = RunStatus.completed) ∧
        run2.completed_at = some now ∧ run2.progress = 100) ∧
      (∀ name err md, ∃ s3 run3, failStage s id name err md now = some s3 ∧
        s3.lookup id = some run3 ∧
        run3.status = RunStatus.failed ∧ run3.error_message = some err ∧
        run3.progress = run.progress ∧
        run3.completed_at = run.completed_at) := by
  intro s id success now run h
  constructor
  · simp only [completeRun, h]
    refine ⟨_, _, rfl, dictSet_lookup_self _ _ _, ?_, ?_, rfl, rfl⟩
    · cases success <;> simp
    · intro hs
      subst hs
      simp
  · intro name err md
    simp only [failStage, h]
    exact ⟨_, _, rfl, dictSet_lookup_self _ _ _, rfl, rfl, rfl, rfl⟩

/-- Witness for C3 amended at a concrete input. -/
theorem run_termination_semantics_witness :
    sampleStore.lookup "r1" =
      some (createRun [] "Nike shoe advertisement showcasing athletic performance"
        "image" none "r1" 0).1 ∧
    (∃ s2 run2, completeRun sampleStore "r1" true 7 = some s2 ∧
      s2.lookup "r1" = some run2 ∧
      (run2.status = RunStatus.completed ∨ run2.status = RunStatus.failed) ∧
      (true = true → run2.status = RunStatus.completed) ∧
      run2.completed_at = some 7 ∧ run2.progress = 100) :=
  ⟨by rfl,
   (run_termination_semantics sampleStore "r1" true 7 _ (by rfl)).1⟩

/-- Claim C7: create_run stores the created run under the freshly drawn
identifier, and the new run starts with status pending, progress 0, an
empty stage history and retry count 0 (plus the other null initial fields);
provided the uuid draw is new — the design document treats identifier
collision as practically unreachable — the identifier was never issued
before. -/
theorem create_run_spec :
    ∀ (s : Store) (prompt mt : String) (url : Option String)
      (issued : List String) (uuid : String) (now : Nat),
      uuid ∉ issued →
      (createRun s prompt mt url uuid now).1.run_id = uuid ∧
      (createRun s prompt mt url uuid now).1.run_id ∉ issued ∧
      (createRun s prompt mt url uuid now).2.lookup uuid =
        some (createRun s prompt mt url uuid now).1 ∧
      (createRun s prompt mt url uuid now).1.status = RunStatus.pending ∧
      (createRun s prompt mt url uuid now).1.progress = 0 ∧
      (createRun s prompt mt url uuid now).1.stages = [] ∧
      (createRun s prompt mt url uuid now).1.retry_count = 0 ∧
      (createRun s prompt mt url uuid now).1.current_stage = none ∧
      (createRun s prompt mt url uuid now).1.completed_at = none := by
  intro s prompt mt url issued uuid now hfresh
  exact ⟨rfl, hfresh, dictSet_lookup_self _ _ _, rfl, rfl, rfl, rfl, rfl, rfl⟩

/-- Witness for C7 at a concrete input. -/
theorem create_run_spec_witness :
    ("r1" : String) ∉ (["r0"] : List String) ∧
    (createRun [] "a brand advert" "image" none "r1" 0).1.run_id ∉
      (["r0"] : List String) ∧
    (createRun [] "a brand advert" "image" none "r1" 0).1.status =
      RunStatus.pending :=
  ⟨by decide,
   (create_run_spec [] "a brand advert" "image" none ["r0"] "r1" 0
     (by decide)).2.1,
   (create_run_spec [] "a brand advert" "image" none ["r0"] "r1" 0
     (by decide)).2.2.2.1⟩

/-- Claim C4: on an existing run, update_status succeeds, always sets the
given status and the last-updated timestamp; a supplied progress is stored
clamped to [0, 100]; progress, current stage and error message that are not
supplied keep their previous values; and every other field of the run —
identity, input snapshot, stage history, result fields, retry count,
created and completed timestamps — is unchanged. -/
theorem update_status_spec :
    ∀ (s : Store) (id : String) (st : RunStatus) (p : Option ℚ)
      (cs e : Option String) (now : Nat) (run : RunModel),
      s.lookup id = some run →
      ∃ s2 run2, updateStatus s id st p cs e now = some s2 ∧
        s2.lookup id = some run2 ∧
        run2.status = st ∧
        run2.updated_at = now ∧
        run2.progress =
          (match p with
           | none => run.progress
           | some v => max 0 (min 100 v)) ∧
        run2.current_stage =
          (match cs with
           | none => run.current_stage
           | some c => some c) ∧
        run2.error_message =
          (match e with
           | none => run.error_message
           | some m => some m) ∧
        run2.retry_count = run.retry_count ∧
        run2.stages = run.stages ∧
        run2.brand_kit_data = run.brand_kit_data ∧
        run2.generated_ads = run.generated_ads ∧
        run2.critique_results = run.critique_results ∧
        run2.final_ad_path = run.final_ad_path ∧
        run2.created_at = run.created_at ∧
        run2.completed_at = run.completed_at ∧
        run2.run_id = run.run_id ∧
        run2.prompt = run.prompt ∧
        run2.media_type = run.media_type ∧
        run2.brand_website_url = run.brand_website_url := by
  intro s id st p cs e now run h
  simp only [updateStatus, h]
  refine ⟨_, _, rfl, dictSet_lookup_self _ _ _, ?_⟩
  cases p <;> cases cs <;> cases e <;> simp

/-- Witness for C4 at a concrete input: a progress of 250 is stored as
100. -/
theorem update_status_spec_witness :
    sampleStore.lookup "r1" =
      some (createRun [] "Nike shoe advertisement showcasing athletic performance"
        "image" none "r1" 0).1 ∧
    (∃ s2 run2,
      updateStatus sampleStore "r1" RunStatus.generating (some 250)
        (some "generation") none 4 = some s2 ∧
      s2.lookup "r1" = some run2 ∧
      run2.status = RunStatus.generating ∧
      run2.updated_at = 4 ∧
      run2.progress =
        (match (some (250 : ℚ)) with
         | none =>
           (createRun [] "Nike shoe advertisement showcasing athletic performance"
             "image" none "r1" 0).1.progress
         | some v => max 0 (min 100 v)) ∧
      run2.current_stage =
        (match (some "generation") with
         | none =>
           (createRun [] "Nike shoe advertisement showcasing athletic performance"
             "image" none "r1" 0).1.current_stage
         | some c => some c)) := by
  refine ⟨by rfl, ?_⟩
  obtain ⟨s2, run2, h1, h2, h3, h4, h5, h6, -⟩ :=
    update_status_spec sampleStore "r1" RunStatus.generating (some 250)
      (some "generation") none 4 _ (by rfl)
  exact ⟨s2, run2, h1, h2, h3, h4, h5, h6⟩

/-- Claim C5: on an existing run, fail_stage succeeds and transitions the
whole run to status failed with the given error message stored, while the
run's progress, retry count and result fields (brand kit, generated ads,
critique results, final artifact) keep their previous values. -/
theorem fail_stage_spec :
    ∀ (s : Store) (id name err : String)
      (md : Option (List (String × String))) (now : Nat) (run : RunModel),
      s.lookup id = some run →
      ∃ s2 run2, failStage s id name err md now = some s2 ∧
        s2.lookup id = some run2 ∧
        run2.status = RunStatus.failed ∧
        run2.error_message = some err ∧
        run2.progress = run.progress ∧
        run2.retry_count = run.retry_count ∧
        run2.brand_kit_data = run.brand_kit_data ∧
        run2.generated_ads = run.generated_ads ∧
        run2.critique_results = run.critique_results ∧
        run2.final_ad_path = run.final_ad_path ∧
        run2.completed_at = run.completed_at ∧
        run2.created_at = run.created_at := by
  intro s id name err md now run h
  simp only [failStage, h]
  exact ⟨_, _, rfl, dictSet_lookup_self _ _ _, rfl, rfl, rfl, rfl, rfl, rfl,
    rfl, rfl, rfl, rfl⟩

/-- Witness for C5 at a concrete input. -/
theorem fail_stage_spec_witness :
    sampleStore.lookup "r1" =
      some (createRun [] "Nike shoe advertisement showcasing athletic performance"
        "image" none "r1" 0).1 ∧
    (∃ s2 run2, failStage sampleStore "r1" "generation" "boom" none 9 =
        some s2 ∧
      s2.lookup "r1" = some run2 ∧
      run2.status = RunStatus.failed ∧
      run2.error_message = some "boom") := by
  refine ⟨by rfl, ?_⟩
  obtain ⟨s2, run2, h1, h2, h3, h4, -⟩ :=
    fail_stage_spec sampleStore "r1" "generation" "boom" none 9 _ (by rfl)
  exact ⟨s2, run2, h1, h2, h3, h4⟩

/-- Claim C10: on an existing run and a stage name with no Stage Record,
complete_stage and fail_stage both report success rather than an error;
complete_stage changes nothing but the run's last-updated timestamp, and
fail_stage still marks the whole run failed with the error message stored
while creating no Stage Record (stage history, current stage, progress and
retry count unchanged). -/
theorem missing_stage_ops_spec :
    ∀ (s : Store) (id name err : String)
      (md : Option (List (String × String))) (now : Nat) (run : RunModel),
      s.lookup id = some run →
      run.stages.lookup name = none →
      completeStage s id name md now =
        some (dictSet s id { run with updated_at := now }) ∧
      (∃ s3 run3, failStage s id name err md now = some s3 ∧
        s3.lookup id = some run3 ∧
        run3.status = RunStatus.failed ∧
        run3.error_message = some err ∧
        run3.stages = run.stages ∧
        run3.stages.lookup name = none ∧
        run3.current_stage = run.current_stage ∧
        run3.progress = run.progress ∧
        run3.retry_count = run.retry_count ∧
        run3.updated_at = now) := by
  intro s id name err md now run h hst
  constructor
  · simp only [completeStage, h, hst]
  · simp only [failStage, h, hst]
    exact ⟨_, _, rfl, dictSet_lookup_self _ _ _, rfl, rfl, rfl, hst, rfl, rfl,
      rfl, rfl⟩

/-- Witness for C10 at a concrete input: run "r1" has never started stage
"critique". -/
theorem missing_stage_ops_spec_witness :
    sampleStore.lookup "r1" =
      some (createRun [] "Nike shoe advertisement showcasing athletic performance"
        "image" none "r1" 0).1 ∧
    (createRun [] "Nike shoe advertisement showcasing athletic performance"
      "image" none "r1" 0).1.stages.lookup "critique" = none ∧
    completeStage sampleStore "r1" "critique" none 6 =
      some (dictSet sampleStore "r1"
        { (createRun [] "Nike shoe advertisement showcasing athletic performance"
            "image" none "r1" 0).1 with updated_at := 6 }) := by
  refine ⟨by rfl, by rfl, ?_⟩
  exact (missing_stage_ops_spec sampleStore "r1" "critique" "e" none 6 _
    (by rfl) (by rfl)).1

theorem lookup_mem_map_snd (l : List (String × α)) (k : String) (a : α)
    (h : l.lookup k = some a) : a ∈ l.map Prod.snd := by
  induction l with
  | nil => cases h
  | cons hd t ih =>
    obtain ⟨k1, v1⟩ := hd
    cases hbk : k == k1 with
    | true =>
      simp only [List.lookup, hbk] at h
      cases h
      simp
    | false =>
      simp only [List.lookup, hbk] at h
      simpa using Or.inr (ih h)

/-- The reference-level store holding one freshly created run, id "r1",
its RunModel object at heap address 0. -/
def hSampleStore : HStore :=
  (hCreateRun { heap := [], runs := [] }
    "Nike shoe advertisement showcasing athletic performance"
    "image" none "r1" 0).2

/-- hSampleStore after an update_status performed after the reader already
obtained its reference. -/
def hMutatedStore : HStore :=
  (hUpdateStatus hSampleStore "r1" RunStatus.generating (some 40)
    (some "generation") none 2).getD hSampleStore

/-- Claim C6 counterexample: get_run (and list_runs) hand the reader the
stored reference itself, not a copy; a later update_status mutates the
referenced RunModel object in place, so the value observed through the
reference the reader already holds changes from the pending record to the
generating record — a subsequent store mutation does alter what the reader
already holds. -/
theorem reader_reference_mutated :
    hGetRun hSampleStore "r1" = some 0 ∧
    hListRuns hSampleStore none = [0] ∧
    (hSampleStore.deref 0).map RunModel.status = some RunStatus.pending ∧
    (hMutatedStore.deref 0).map RunModel.status =
      some RunStatus.generating ∧
    hSampleStore.deref 0 ≠ hMutatedStore.deref 0 := by
  refine ⟨rfl, rfl, rfl, rfl, ?_⟩
  intro heq
  have hst := congrArg (Option.map RunModel.status) heq
  rw [show (hSampleStore.deref 0).map RunModel.status =
        some RunStatus.pending from rfl,
      show (hMutatedStore.deref 0).map RunModel.status =
        some RunStatus.generating from rfl] at hst
  cases hst

/-- Claim C6 as amended: list_runs builds a new list holding the stored
references of exactly the runs whose status matches the filter as read at
call time, and get_run returns a stored reference or none; the list itself
is a membership snapshot — a run created afterwards has a reference
distinct from every element of the previously returned list — but the
elements are references to the live run objects, not copies of the
records. -/
theorem list_and_get_reference_spec :
    ∀ (s : HStore) (filt : Option RunStatus) (a : Nat),
      (a ∈ hListRuns s filt ↔
        (a ∈ s.runs.map Prod.snd ∧
          ∀ st, filt = some st → ∃ r, s.deref a = some r ∧ r.status = st)) ∧
      (∀ id a2, hGetRun s id = some a2 → a2 ∈ s.runs.map Prod.snd) ∧
      ((∀ p ∈ s.runs, p.2 < s.heap.length) →
        a ∈ hListRuns s filt →
        ∀ prompt mt url uuid now,
          a ≠ (hCreateRun s prompt mt url uuid now).1) := by
  intro s filt a
  have hiff : a ∈ hListRuns s filt ↔
      (a ∈ s.runs.map Prod.snd ∧
        ∀ st, filt = some st → ∃ r, s.deref a = some r ∧ r.status = st) := by
    cases filt with
    | none => simp [hListRuns]
    | some st =>
      simp only [hListRuns, List.mem_filter]
      refine and_congr_right fun _ => ?_
      cases hd : s.heap[a]? with
      | none => simp [HStore.deref, hd]
      | some r => simp [HStore.deref, hd]
  refine ⟨hiff, ?_, ?_⟩
  · intro id a2 hget
    exact lookup_mem_map_snd s.runs id a2 hget
  · intro hwf hmem prompt mt url uuid now
    have hlt : a < s.heap.length := by
      obtain ⟨hms, -⟩ := hiff.mp hmem
      obtain ⟨p, hp, hpa⟩ := List.mem_map.mp hms
      exact hpa ▸ hwf p hp
    exact fun hcontra => absurd (hcontra ▸ hlt) (lt_irrefl _)

/-- Witness for C6 amended at a concrete input. -/
theorem list_and_get_reference_spec_witness :
    (0 ∈ hListRuns hSampleStore none ↔
      (0 ∈ hSampleStore.runs.map Prod.snd ∧
        ∀ st, (none : Option RunStatus) = some st →
          ∃ r, hSampleStore.deref 0 = some r ∧ r.status = st)) ∧
    (∀ p ∈ hSampleStore.runs, p.2 < hSampleStore.heap.length) ∧
    (0 ∈ hListRuns hSampleStore none →
      0 ≠ (hCreateRun hSampleStore "another advert prompt" "video" none
        "r2" 3).1) :=
  ⟨(list_and_get_reference_spec hSampleStore none 0).1,
   by decide,
   fun hmem => (list_and_get_reference_spec hSampleStore none 0).2.2
     (by decide) hmem "another advert prompt" "video" none "r2" 3⟩

theorem applyEngineOp_progress (run_id : String) (s : Store) (op : EngineOp)
    (run : RunModel) (h : s.lookup run_id = some run)
    (h100 : run.progress ≤ 100) :
    ∃ run2, (applyEngineOp run_id s op).lookup run_id = some run2 ∧
      run.progress ≤ run2.progress ∧ run2.progress ≤ 100 := by
  have hclamp : ∀ v : ℚ, max 0 (min 100 v) ≤ 100 :=
    fun v => max_le (by norm_num) (min_le_left _ _)
  have hfloor : ∀ cp : ℚ, run.progress ≤ max 0 (min 100 (max run.progress cp)) := by
    intro cp
    calc run.progress = min 100 run.progress := (min_eq_right h100).symm
      _ ≤ min 100 (max run.progress cp) :=
          min_le_min le_rfl (le_max_left _ _)
      _ ≤ max 0 (min 100 (max run.progress cp)) := le_max_right _ _
  cases op with
  | enterState st cp cs now =>
    simp only [applyEngineOp, h, updateStatus, Option.getD_some]
    cases cs with
    | none => exact ⟨_, dictSet_lookup_self _ _ _, hfloor cp, hclamp _⟩
    | some c => exact ⟨_, dictSet_lookup_self _ _ _, hfloor cp, hclamp _⟩
  | startStageOp name md now =>
    simp only [applyEngineOp, startStage, h, Option.getD_some]
    exact ⟨_, dictSet_lookup_self _ _ _, le_rfl, h100⟩
  | completeStageOp name md now =>
    simp only [applyEngineOp, completeStage, h, Option.getD_some]
    exact ⟨_, dictSet_lookup_self _ _ _, le_rfl, h100⟩
  | failStageOp name err md now =>
    simp only [applyEngineOp, failStage, h, Option.getD_some]
    exact ⟨_, dictSet_lookup_self _ _ _, le_rfl, h100⟩
  | retryOp now =>
    simp only [applyEngineOp, incrementRetry, h, Option.getD_some]
    exact ⟨_, dictSet_lookup_self _ _ _, le_rfl, h100⟩
  | dataOp bk ads cr fp now =>
    simp only [applyEngineOp, updateRunData, h, Option.getD_some]
    cases bk <;> cases ads <;> cases cr <;> cases fp <;>
      exact ⟨_, dictSet_lookup_self _ _ _, le_rfl, h100⟩
  | finishOp success now =>
    simp only [applyEngineOp, completeRun, h, Option.getD_some]
    exact ⟨_, dictSet_lookup_self _ _ _, h100, le_rfl⟩

/-- Claim C9: along any sequence of engine-issued Run Store operations on a
run — state entries writing their per-stage checkpoints, stage records,
retry increments, result writes and the terminal completion, in any order,
so in particular across retry loop-backs — the run's progress never
decreases below a previously observed value (and stays at most 100);
since the starting store is arbitrary, this bounds every pair of
observation points of the run's history. -/
theorem engine_progress_monotone :
    ∀ (ops : List EngineOp) (run_id : String) (s : Store) (run : RunModel),
      s.lookup run_id = some run → run.progress ≤ 100 →
      ∃ run2, (applyEngineOps run_id s ops).lookup run_id = some run2 ∧
        run.progress ≤ run2.progress ∧ run2.progress ≤ 100 := by
  intro ops
  induction ops with
  | nil =>
    intro run_id s run h h100
    exact ⟨run, h, le_rfl, h100⟩
  | cons op t ih =>
    intro run_id s run h h100
    obtain ⟨run1, h1, hle1, h1001⟩ :=
      applyEngineOp_progress run_id s op run h h100
    obtain ⟨run2, h2, hle2, h1002⟩ :=
      ih run_id (applyEngineOp run_id s op) run1 h1 h1001
    exact ⟨run2, h2, le_trans hle1 hle2, h1002⟩

/-- Witness for C9 on a concrete retry-loop trace: generation, critique,
a retry looping back into generation, then completion. -/
theorem engine_progress_monotone_witness :
    sampleStore.lookup "r1" =
      some (createRun [] "Nike shoe advertisement showcasing athletic performance"
        "image" none "r1" 0).1 ∧
    (∃ run2, (applyEngineOps "r1" sampleStore
        [EngineOp.enterState RunStatus.generating 40 (some "generation") 1,
         EngineOp.enterState RunStatus.critiquing 70 (some "critique") 2,
         EngineOp.retryOp 3,
         EngineOp.enterState RunStatus.generating 40 (some "generation") 4,
         EngineOp.finishOp true 5]).lookup "r1" = some run2 ∧
      (createRun [] "Nike shoe advertisement showcasing athletic performance"
        "image" none "r1" 0).1.progress ≤ run2.progress ∧
      run2.progress ≤ 100) :=
  ⟨by rfl,
   engine_progress_monotone _ "r1" sampleStore _ (by rfl)
     (by show (0 : ℚ) ≤ 100; norm_num)⟩

end BrandAI
